import Mathlib

/-!
Shallow embedding of the client-side financial derivation logic of
track-your-finance-fe, centred on `PropertyDetail.tsx`:

* the period filter over real-estate transactions (lines 162-174),
* the income/expense totals and balance (lines 176-194),
* the filtered income/expense sums and filtered balance (lines 185-192, 607-613),
* the date handling of `RealEstateTransactionModal.handleSubmit`
  (`fullDateTime = new Date(formData.transaction_date + 'T12:00:00.000Z')`),
* the category-breakdown percentage rule, which lives in the backend
  statistics endpoint and is modelled from the spec.

JavaScript `Date` objects compare by their epoch-millisecond value, so parsed
dates are embedded as integers (milliseconds since the Unix epoch).  Amounts
are embedded as rationals; the optional fields of the generated
`ModelsRealEstateTransaction` record (`amount?`, `type?`, `transaction_date?`)
become `Option`-typed fields.
-/

/-- The two values of the generated `ModelsRealEstateTransactionType` enum:
`RealEstateIncome` (`"INCOME"`) and `RealEstateExpense` (`"EXPENSE"`). -/
inductive RealEstateTransactionType where
  | income
  | expense
deriving DecidableEq, Repr

/-- The fields of the generated `ModelsRealEstateTransaction` record that the
derivation logic reads.  `amount`, `type` and `transaction_date` are optional
in the generated model (the code guards them with `t.amount || 0`,
`t.type === ...`, `!t.transaction_date`).  `transaction_date` is the parsed
`new Date(t.transaction_date)` value in epoch milliseconds. -/
structure RealEstateTransaction where
  amount : Option ℚ
  type : Option RealEstateTransactionType
  transaction_date : Option ℤ
deriving DecidableEq, Repr

/-- `new Date("yyyy-MM-dd")` on a date-only ISO string: midnight UTC of that
calendar day (`day` counts days since the Unix epoch).  This is how the
filter bounds `filterFromDate` / `filterToDate` (HTML `<input type="date">`
values) parse. -/
def dateOnlyTs (day : ℤ) : ℤ := day * 86400000

/-- The timestamp stored by `RealEstateTransactionModal.handleSubmit`:
`new Date(formData.transaction_date + 'T12:00:00.000Z').toISOString()`,
i.e. noon UTC of the chosen calendar day. -/
def modalNoonTs (day : ℤ) : ℤ := dateOnlyTs day + 43200000

/-- The filter predicate of `PropertyDetail.tsx` lines 163-174:

```
if (!t.transaction_date) return true
const transactionDate = new Date(t.transaction_date)
const fromDate = filterFromDate ? new Date(filterFromDate) : null
const toDate = filterToDate ? new Date(filterToDate) : null
if (fromDate && transactionDate < fromDate) return false
if (toDate && transactionDate > toDate) return false
return true
```

`fromDate` / `toDate` are `none` when the corresponding filter string is
empty. -/
def keepsTransaction (fromDate toDate : Option ℤ) (t : RealEstateTransaction) : Bool :=
  match t.transaction_date with
  | none => true
  | some d =>
    (match fromDate with
     | some f => !decide (d < f)
     | none => true) &&
    (match toDate with
     | some u => !decide (u < d)
     | none => true)

/-- `filteredTransactions = transactions.filter(t => ...)`
(`PropertyDetail.tsx` lines 162-174). -/
def filteredTransactions (transactions : List RealEstateTransaction)
    (fromDate toDate : Option ℤ) : List RealEstateTransaction :=
  transactions.filter (keepsTransaction fromDate toDate)

/-- `transactions.filter(t => t.type === ty)` — the type filter shared by the
four sums in `PropertyDetail.tsx` lines 176-192. -/
def transactionsOfType (ty : RealEstateTransactionType)
    (transactions : List RealEstateTransaction) : List RealEstateTransaction :=
  transactions.filter (fun t => decide (t.type = some ty))

/-- `.reduce((sum, t) => sum + (t.amount || 0), 0)` — a left fold from `0`
adding each transaction's amount, with a missing amount coalesced to `0`. -/
def reduceAmounts (transactions : List RealEstateTransaction) : ℚ :=
  transactions.foldl (fun sum t => sum + t.amount.getD 0) 0

/-- `totalIncome` (`PropertyDetail.tsx` lines 177-179): sum of amounts over
ALL transactions of type `RealEstateIncome`. -/
def totalIncome (transactions : List RealEstateTransaction) : ℚ :=
  reduceAmounts (transactionsOfType .income transactions)

/-- `totalExpense` (`PropertyDetail.tsx` lines 181-183): sum of amounts over
ALL transactions of type `RealEstateExpense`. -/
def totalExpense (transactions : List RealEstateTransaction) : ℚ :=
  reduceAmounts (transactionsOfType .expense transactions)

/-- `filteredIncome` (`PropertyDetail.tsx` lines 186-188): the income sum over
the date-filtered list. -/
def filteredIncome (transactions : List RealEstateTransaction)
    (fromDate toDate : Option ℤ) : ℚ :=
  reduceAmounts (transactionsOfType .income (filteredTransactions transactions fromDate toDate))

/-- `filteredExpense` (`PropertyDetail.tsx` lines 190-192): the expense sum
over the date-filtered list. -/
def filteredExpense (transactions : List RealEstateTransaction)
    (fromDate toDate : Option ℤ) : ℚ :=
  reduceAmounts (transactionsOfType .expense (filteredTransactions transactions fromDate toDate))

/-- `const balance = totalIncome - totalExpense` (`PropertyDetail.tsx`
line 194). -/
def balance (transactions : List RealEstateTransaction) : ℚ :=
  totalIncome transactions - totalExpense transactions

/-- The filtered balance rendered at `PropertyDetail.tsx` lines 607-613:
`filteredIncome - filteredExpense`. -/
def filteredBalance (transactions : List RealEstateTransaction)
    (fromDate toDate : Option ℤ) : ℚ :=
  filteredIncome transactions fromDate toDate - filteredExpense transactions fromDate toDate

/-- All values the transactions section of `PropertyDetail.tsx` derives from
the transaction list and the two filter-date inputs, computed together as the
component body does (lines 162-194). -/
structure PropertyMetrics where
  filtered : List RealEstateTransaction
  totalIncome : ℚ
  totalExpense : ℚ
  filteredIncome : ℚ
  filteredExpense : ℚ
  balance : ℚ
deriving Repr

/-- The derivation pass of the component body (`PropertyDetail.tsx`
lines 162-194) as one function of the state it reads. -/
def computeMetrics (transactions : List RealEstateTransaction)
    (fromDate toDate : Option ℤ) : PropertyMetrics :=
  { filtered := filteredTransactions transactions fromDate toDate
    totalIncome := totalIncome transactions
    totalExpense := totalExpense transactions
    filteredIncome := filteredIncome transactions fromDate toDate
    filteredExpense := filteredExpense transactions fromDate toDate
    balance := balance transactions }

/-- The spec's retention predicate (§4.1), written from its words: an entry is
retained if (`from` is absent OR `occurredAt >= from`) AND (`to` is absent OR
`occurredAt <= to`); an entry lacking a date is retained unconditionally. -/
def specRetains (fromDate toDate : Option ℤ) (t : RealEstateTransaction) : Prop :=
  match t.transaction_date with
  | none => True
  | some d =>
    (match fromDate with
     | some f => f ≤ d
     | none => True) ∧
    (match toDate with
     | some u => d ≤ u
     | none => True)

/-- Modelled from the spec: the Category Breakdown (spec §4.3) is computed by
the backend statistics endpoint (`statsApi.monthly`); this repository only
renders its output (`Dashboard.tsx`, the spending-diary page), so the entry
record below follows the spec's §3 `LedgerEntry`. -/
structure LedgerEntry where
  amount : ℚ
  kind : RealEstateTransactionType
  categoryId : Option ℕ
deriving DecidableEq, Repr

/-- Modelled from the spec (§4.3): `totalForKind` is the sum of all amounts of
entries of the given `kind` within the filtered set. -/
def totalForKind (k : RealEstateTransactionType) (entries : List LedgerEntry) : ℚ :=
  ((entries.filter (fun e => decide (e.kind = k))).map (fun e => e.amount)).sum

/-- Modelled from the spec (§4.3): a group's `amount` is the sum of entries in
that category within the filtered set. -/
def categoryAmount (cid : Option ℕ) (entries : List LedgerEntry) : ℚ :=
  ((entries.filter (fun e => decide (e.categoryId = cid))).map (fun e => e.amount)).sum

/-- Modelled from the spec (§4.3): `percentage = amount / totalForKind * 100`,
and `percentage = 0` when the per-kind total is zero (no division by zero). -/
def categoryPercentage (entries : List LedgerEntry) (k : RealEstateTransactionType)
    (cid : Option ℕ) : ℚ :=
  if totalForKind k entries = 0 then 0
  else categoryAmount cid entries / totalForKind k entries * 100

/-! ### Helper lemmas -/

/-- The `reduce` is a left fold from 0; relate it to the sum of the mapped
amounts so that the sums can be reasoned about algebraically. -/
theorem foldl_amounts_eq (transactions : List RealEstateTransaction) (init : ℚ) :
    transactions.foldl (fun sum t => sum + t.amount.getD 0) init
      = init + (transactions.map (fun t => t.amount.getD 0)).sum := by
  induction transactions generalizing init with
  | nil => simp
  | cons t ts ih =>
    simp only [List.foldl_cons, List.map_cons, List.sum_cons, ih]
    ring

theorem reduceAmounts_eq (transactions : List RealEstateTransaction) :
    reduceAmounts transactions = (transactions.map (fun t => t.amount.getD 0)).sum := by
  simpa using foldl_amounts_eq transactions 0

theorem keepsTransaction_iff (fromDate toDate : Option ℤ) (t : RealEstateTransaction) :
    keepsTransaction fromDate toDate t = true ↔ specRetains fromDate toDate t := by
  unfold keepsTransaction specRetains
  rcases t.transaction_date with _ | d
  · simp
  · rcases fromDate with _ | f <;> rcases toDate with _ | u <;>
      simp [Bool.and_eq_true, not_lt]

theorem reduceAmounts_cons_amount_none (t : RealEstateTransaction)
    (l : List RealEstateTransaction) (h : t.amount = none) :
    reduceAmounts (t :: l) = reduceAmounts l := by
  simp [reduceAmounts_eq, h]

theorem sumOfType_cons_amount_none (ty : RealEstateTransactionType)
    (t : RealEstateTransaction) (l : List RealEstateTransaction) (h : t.amount = none) :
    reduceAmounts (transactionsOfType ty (t :: l))
      = reduceAmounts (transactionsOfType ty l) := by
  unfold transactionsOfType
  rw [List.filter_cons]
  split
  · exact reduceAmounts_cons_amount_none t _ h
  · rfl

/-! ### Claims -/

/-- C1: the spec claims both period-filter bounds are inclusive for entries
dated exactly `from` or exactly `to`.  For a transaction created by
`RealEstateTransactionModal` (stored at noon UTC of its calendar day,
here 2024-01-10, day 19732 since the epoch), a `from` bound on that same day
does include it, but a `to` bound on that same day EXCLUDES it: the bound
parses to midnight UTC and noon > midnight, so `transactionDate > toDate`
fires.  This theorem evaluates the filter at that failing input. -/
theorem c1_to_bound_excludes_same_day_modal_entry :
    filteredTransactions
        [{ amount := some 40, type := some .expense,
           transaction_date := some (modalNoonTs 19732) }]
        (some (dateOnlyTs 19732)) none
      = [{ amount := some 40, type := some .expense,
           transaction_date := some (modalNoonTs 19732) }]
    ∧ filteredTransactions
        [{ amount := some 40, type := some .expense,
           transaction_date := some (modalNoonTs 19732) }]
        none (some (dateOnlyTs 19732))
      = [] := by
  constructor <;> decide

/-- C2: the filter retains an entry iff (`from` is absent OR its parsed date
is `>= from`) AND (`to` is absent OR its parsed date is `<= to`); an entry
lacking a `transaction_date` is retained unconditionally (its branch of
`specRetains` is `True`, whatever the bounds). -/
theorem c2_retention_characterization (transactions : List RealEstateTransaction)
    (fromDate toDate : Option ℤ) (t : RealEstateTransaction) :
    t ∈ filteredTransactions transactions fromDate toDate ↔
      t ∈ transactions ∧ specRetains fromDate toDate t := by
  simp [filteredTransactions, List.mem_filter, keepsTransaction_iff]

/-- Witness for C2 at a concrete input: an entry with no date is retained
under both bounds present. -/
theorem c2_retention_characterization_witness :
    ({ amount := some 5, type := some .income, transaction_date := none }
        : RealEstateTransaction)
      ∈ filteredTransactions
          [{ amount := some 5, type := some .income, transaction_date := none }]
          (some 0) (some 0) :=
  (c2_retention_characterization _ _ _ _).mpr ⟨by decide, by trivial⟩

/-- C3: `totalIncome` is the sum of the amounts of exactly the entries whose
type is income, `totalExpense` likewise for expense, and no transaction can
satisfy both type tests at once (the kinds partition the entries). -/
theorem c3_totals_partition (transactions : List RealEstateTransaction) :
    totalIncome transactions
        = ((transactions.filter (fun t => decide (t.type = some .income))).map
            (fun t => t.amount.getD 0)).sum
    ∧ totalExpense transactions
        = ((transactions.filter (fun t => decide (t.type = some .expense))).map
            (fun t => t.amount.getD 0)).sum
    ∧ ∀ t : RealEstateTransaction,
        ¬(t.type = some RealEstateTransactionType.income
          ∧ t.type = some RealEstateTransactionType.expense) := by
  refine ⟨?_, ?_, ?_⟩
  · rw [totalIncome, transactionsOfType, reduceAmounts_eq]
  · rw [totalExpense, transactionsOfType, reduceAmounts_eq]
  · rintro t ⟨h1, h2⟩
    rw [h1] at h2
    exact RealEstateTransactionType.noConfusion (Option.some.inj h2)

/-- Witness for C3 at a concrete two-entry list (spec §8 Scenario A). -/
theorem c3_totals_partition_witness :
    totalIncome
        [{ amount := some 100, type := some .income, transaction_date := none },
         { amount := some 40, type := some .expense, transaction_date := none }]
      = 100 := by
  rw [(c3_totals_partition
    [{ amount := some 100, type := some .income, transaction_date := none },
     { amount := some 40, type := some .expense, transaction_date := none }]).1]
  norm_num [List.filter,
    show decide (RealEstateTransactionType.expense
      = RealEstateTransactionType.income) = false from rfl,
    show decide ((some RealEstateTransactionType.expense : Option RealEstateTransactionType)
      = some RealEstateTransactionType.income) = false from rfl,
    show decide ((some RealEstateTransactionType.income : Option RealEstateTransactionType)
      = some RealEstateTransactionType.income) = true from rfl]

/-- C4: the net balance is exactly `totalIncome - totalExpense`, the rendered
filtered balance is exactly `filteredIncome - filteredExpense`, and the
balance can be negative (a single expense entry makes it so). -/
theorem c4_balance_identity :
    (∀ transactions, balance transactions
        = totalIncome transactions - totalExpense transactions)
    ∧ (∀ transactions fromDate toDate,
        filteredBalance transactions fromDate toDate
          = filteredIncome transactions fromDate toDate
            - filteredExpense transactions fromDate toDate)
    ∧ (∃ transactions, balance transactions < 0) := by
  refine ⟨fun _ => rfl, fun _ _ _ => rfl, ?_⟩
  refine ⟨[{ amount := some 5, type := some .expense, transaction_date := none }], ?_⟩
  norm_num [balance, totalIncome, totalExpense, reduceAmounts, transactionsOfType,
    List.filter,
    show decide (RealEstateTransactionType.expense
      = RealEstateTransactionType.income) = false from rfl,
    show decide ((some RealEstateTransactionType.expense : Option RealEstateTransactionType)
      = some RealEstateTransactionType.income) = false from rfl,
    show decide ((some RealEstateTransactionType.expense : Option RealEstateTransactionType)
      = some RealEstateTransactionType.expense) = true from rfl]

/-- C5: the empty transaction list yields the all-zero summary: zero income,
zero expense, zero balance and zero entry count. -/
theorem c5_empty_all_zero :
    totalIncome [] = 0 ∧ totalExpense [] = 0 ∧ balance [] = 0
      ∧ ([] : List RealEstateTransaction).length = 0 := by
  refine ⟨rfl, rfl, ?_, rfl⟩
  norm_num [balance, totalIncome, totalExpense, reduceAmounts, transactionsOfType]

/-- C6: the period filter is idempotent — filtering an already-filtered list
with the same bounds returns the same list. -/
theorem c6_filter_idempotent (transactions : List RealEstateTransaction)
    (fromDate toDate : Option ℤ) :
    filteredTransactions (filteredTransactions transactions fromDate toDate)
        fromDate toDate
      = filteredTransactions transactions fromDate toDate := by
  simp [filteredTransactions, List.filter_filter]

/-- C7: the period filter's output is a subsequence of its input, in the same
relative order — it never reorders, duplicates or sorts entries. -/
theorem c7_filter_sublist (transactions : List RealEstateTransaction)
    (fromDate toDate : Option ℤ) :
    List.Sublist (filteredTransactions transactions fromDate toDate) transactions :=
  List.filter_sublist transactions

/-- C8 (category breakdown modelled from the spec, §4.3): when no entry of a
kind exists in the filtered set, that kind's total is zero and every category
of that kind gets `percentage = 0` — never a division by zero. -/
theorem c8_percentage_zero_without_kind (entries : List LedgerEntry)
    (k : RealEstateTransactionType) (h : ∀ e ∈ entries, e.kind ≠ k) :
    totalForKind k entries = 0
      ∧ ∀ cid, categoryPercentage entries k cid = 0 := by
  have hz : totalForKind k entries = 0 := by
    have hnil : entries.filter (fun e => decide (e.kind = k)) = [] := by
      rw [List.filter_eq_nil_iff]
      intro e he
      simpa using h e he
    rw [totalForKind, hnil]
    rfl
  exact ⟨hz, fun cid => by rw [categoryPercentage, if_pos hz]⟩

/-- Witness for C8 at a concrete input: a one-expense-entry set has zero
income total and zero income percentage for any category. -/
theorem c8_percentage_zero_without_kind_witness :
    (∀ e ∈ [({ amount := 5, kind := .expense, categoryId := some 1 } : LedgerEntry)],
        e.kind ≠ RealEstateTransactionType.income)
    ∧ (totalForKind .income
          [{ amount := 5, kind := .expense, categoryId := some 1 }] = 0
        ∧ ∀ cid, categoryPercentage
            [{ amount := 5, kind := .expense, categoryId := some 1 }] .income cid = 0) :=
  ⟨by decide, c8_percentage_zero_without_kind _ _ (by decide)⟩

/-- C9: the filter bounds are a frame for the top-card totals — `totalIncome`,
`totalExpense` and `balance` of the computed metrics are identical for every
choice of bounds, while the filtered sums can differ between bounds. -/
theorem c9_totals_independent_of_bounds :
    (∀ (transactions : List RealEstateTransaction) (f₁ u₁ f₂ u₂ : Option ℤ),
        (computeMetrics transactions f₁ u₁).totalIncome
            = (computeMetrics transactions f₂ u₂).totalIncome
        ∧ (computeMetrics transactions f₁ u₁).totalExpense
            = (computeMetrics transactions f₂ u₂).totalExpense
        ∧ (computeMetrics transactions f₁ u₁).balance
            = (computeMetrics transactions f₂ u₂).balance)
    ∧ (∃ (transactions : List RealEstateTransaction) (f₁ u₁ f₂ u₂ : Option ℤ),
        (computeMetrics transactions f₁ u₁).filteredIncome
          ≠ (computeMetrics transactions f₂ u₂).filteredIncome) := by
  refine ⟨fun _ _ _ _ _ => ⟨rfl, rfl, rfl⟩, ?_⟩
  refine ⟨[{ amount := some 7, type := some .income, transaction_date := some 10 }],
    none, none, some 20, none, ?_⟩
  norm_num [computeMetrics, filteredIncome, filteredTransactions, keepsTransaction,
    reduceAmounts, transactionsOfType, List.filter]

/-- C10: a transaction with a missing amount contributes exactly zero to each
of the four sums while still being counted in the entry list (its presence
changes the length but none of the totals). -/
theorem c10_missing_amount_contributes_zero (t : RealEstateTransaction)
    (transactions : List RealEstateTransaction) (fromDate toDate : Option ℤ)
    (h : t.amount = none) :
    totalIncome (t :: transactions) = totalIncome transactions
    ∧ totalExpense (t :: transactions) = totalExpense transactions
    ∧ filteredIncome (t :: transactions) fromDate toDate
        = filteredIncome transactions fromDate toDate
    ∧ filteredExpense (t :: transactions) fromDate toDate
        = filteredExpense transactions fromDate toDate
    ∧ (t :: transactions).length = transactions.length + 1 := by
  have hfil : ∀ ty, reduceAmounts (transactionsOfType ty
        (filteredTransactions (t :: transactions) fromDate toDate))
      = reduceAmounts (transactionsOfType ty
        (filteredTransactions transactions fromDate toDate)) := by
    intro ty
    rw [filteredTransactions, List.filter_cons]
    split
    · exact sumOfType_cons_amount_none ty t _ h
    · rfl
  exact ⟨sumOfType_cons_amount_none .income t transactions h,
    sumOfType_cons_amount_none .expense t transactions h,
    hfil .income, hfil .expense, rfl⟩

/-- Witness for C10 at a concrete input: an income entry with no amount
leaves the income total of a one-entry list unchanged. -/
theorem c10_missing_amount_contributes_zero_witness :
    ({ amount := none, type := some .income, transaction_date := none }
        : RealEstateTransaction).amount = none
    ∧ totalIncome
        [{ amount := none, type := some .income, transaction_date := none },
         { amount := some 7, type := some .income, transaction_date := none }]
      = totalIncome [{ amount := some 7, type := some .income, transaction_date := none }] :=
  ⟨rfl, (c10_missing_amount_contributes_zero _ _ none none rfl).1⟩
